import Mathlib

/-!
Verification of the Daily Effectiveness Logger core: the metrics derivation
engine (`src/lib/calculations.ts`) and the IndexedDB-backed entity store
(the two `DatabaseManager` variants).  JavaScript numbers are embedded as
rationals (`ℚ`); JS `Map` lookup, IndexedDB `add`/`put`/`clear`, and the
pure aggregation function are translated operation by operation.
-/

namespace DailyLogger

/-- `energyLevel: 'High' | 'Medium' | 'Low'` from the `ActivityLog` interface. -/
inductive EnergyLevel where
  | High
  | Medium
  | Low
deriving DecidableEq, Repr

/-- `priority: 'High' | 'Medium' | 'Low'` from the `DailyTask` interface. -/
inductive Priority where
  | High
  | Medium
  | Low
deriving DecidableEq, Repr

/-- `interface ActivityCategory` (database.ts). -/
structure ActivityCategory where
  id : String
  name : String
  points : ℚ
  color : String
  description : String
deriving DecidableEq, Repr

/-- `interface VitalityBonus` (database.ts). -/
structure VitalityBonus where
  id : String
  name : String
  points : ℚ
  description : String
deriving DecidableEq, Repr

/-- `interface ActivityLog` (database.ts).  `startTime`/`endTime` are JS `Date`
values, embedded as epoch-millisecond integers; `duration` and `points` are JS
numbers, embedded as rationals. -/
structure ActivityLog where
  id : String
  name : String
  categoryId : String
  startTime : Int
  endTime : Int
  date : String
  energyLevel : EnergyLevel
  duration : ℚ
  points : ℚ
deriving DecidableEq, Repr

/-- `interface VitalityEntry` (database.ts). -/
structure VitalityEntry where
  id : String
  date : String
  bonusId : String
  completed : Bool
deriving DecidableEq, Repr

/-- `interface DailyTask` (database.ts, version-2 file). -/
structure DailyTask where
  id : String
  date : String
  name : String
  priority : Priority
  completed : Bool
deriving DecidableEq, Repr

/-- `interface DailyGoal` (database.ts). -/
structure DailyGoal where
  id : String
  date : String
  categoryId : String
  targetMinutes : ℚ
deriving DecidableEq, Repr

/-- `interface DailyMetrics` as stored in the `metrics` object store
(database.ts), keyed by `date`. -/
structure DailyMetricsRecord where
  date : String
  totalScore : ℚ
  focusRatio : ℚ
  distractionRatio : ℚ
  productivityThroughput : ℚ
  totalTimeLogged : ℚ
deriving DecidableEq, Repr

/-- The `energyFocusCorrelation` object of calculations.ts. -/
structure EnergyFocusCorrelation where
  high : ℚ
  medium : ℚ
  low : ℚ
deriving DecidableEq, Repr

/-- `interface DailyMetrics` (calculations.ts), the result of
`calculateDailyMetrics`. -/
structure DailyMetrics where
  totalScore : ℚ
  focusRatio : ℚ
  distractionRatio : ℚ
  productivityThroughput : ℚ
  totalTimeLogged : ℚ
  energyFocusCorrelation : EnergyFocusCorrelation
deriving DecidableEq, Repr

/-- `new Map(list.map(x => [key(x), x])).get(k)`: a JS `Map` keeps the most
recently inserted value for each key, so lookup returns the last element of
`l` whose key equals `k`. -/
def mapGet {α : Type} (key : α → String) (l : List α) (k : String) : Option α :=
  l.reverse.find? (fun x => key x = k)

/-- The mutable accumulators of `calculateDailyMetrics` (calculations.ts
lines 26-33). -/
structure ActivityAccum where
  totalActivityScore : ℚ
  totalTimeLogged : ℚ
  deepWorkTime : ℚ
  distractionTime : ℚ
  positivePoints : ℚ
  efc : EnergyFocusCorrelation
deriving DecidableEq, Repr

/-- The body of the `activities.forEach` loop of `calculateDailyMetrics`
(calculations.ts lines 35-56): an activity whose `categoryId` does not resolve
is skipped (`if (!category) return`), otherwise the accumulators are updated. -/
def activityStep (categories : List ActivityCategory) (acc : ActivityAccum)
    (activity : ActivityLog) : ActivityAccum :=
  match mapGet ActivityCategory.id categories activity.categoryId with
  | none => acc
  | some category =>
    let acc1 := { acc with
      totalActivityScore := acc.totalActivityScore + activity.points,
      totalTimeLogged := acc.totalTimeLogged + activity.duration }
    let acc2 := if activity.points > 0 then
        { acc1 with positivePoints := acc1.positivePoints + activity.points }
      else acc1
    if category.name = "Deep Work" then
      let acc3 := { acc2 with deepWorkTime := acc2.deepWorkTime + activity.duration }
      match activity.energyLevel with
      | .High => { acc3 with efc := { acc3.efc with high := acc3.efc.high + activity.duration } }
      | .Medium => { acc3 with efc := { acc3.efc with medium := acc3.efc.medium + activity.duration } }
      | .Low => { acc3 with efc := { acc3.efc with low := acc3.efc.low + activity.duration } }
    else if category.name = "Distraction" then
      { acc2 with distractionTime := acc2.distractionTime + activity.duration }
    else acc2

/-- The body of the `vitalityEntries.forEach` loop of `calculateDailyMetrics`
(calculations.ts lines 62-69): a completed entry whose `bonusId` resolves adds
the bonus points, anything else is skipped. -/
def vitalityStep (vitalityBonuses : List VitalityBonus) (s : ℚ)
    (entry : VitalityEntry) : ℚ :=
  if entry.completed then
    match mapGet VitalityBonus.id vitalityBonuses entry.bonusId with
    | some bonus => s + bonus.points
    | none => s
  else s

/-- `calculateDailyMetrics` (calculations.ts lines 16-85). -/
def calculateDailyMetrics (activities : List ActivityLog)
    (categories : List ActivityCategory) (vitalityEntries : List VitalityEntry)
    (vitalityBonuses : List VitalityBonus) : DailyMetrics :=
  let acc := activities.foldl (activityStep categories) ⟨0, 0, 0, 0, 0, ⟨0, 0, 0⟩⟩
  let totalVitalityScore := vitalityEntries.foldl (vitalityStep vitalityBonuses) 0
  let totalScore := acc.totalActivityScore + totalVitalityScore
  let focusRatio := if acc.totalTimeLogged > 0 then
      acc.deepWorkTime / acc.totalTimeLogged * 100 else 0
  let distractionRatio := if acc.totalTimeLogged > 0 then
      acc.distractionTime / acc.totalTimeLogged * 100 else 0
  let productivityThroughput := if acc.totalTimeLogged > 0 then
      acc.positivePoints / (acc.totalTimeLogged / 60) else 0
  { totalScore := totalScore
    focusRatio := focusRatio
    distractionRatio := distractionRatio
    productivityThroughput := productivityThroughput
    totalTimeLogged := acc.totalTimeLogged
    energyFocusCorrelation := acc.efc }

/-- Whether an activity's `categoryId` resolves in the category lookup map
(the `if (!category) return` guard of calculations.ts line 37). -/
def resolvesCat (categories : List ActivityCategory) (a : ActivityLog) : Bool :=
  (mapGet ActivityCategory.id categories a.categoryId).isSome

/-- Whether a vitality entry's `bonusId` resolves in the bonus lookup map
(calculations.ts lines 64-65). -/
def resolvesBonus (vitalityBonuses : List VitalityBonus) (e : VitalityEntry) : Bool :=
  (mapGet VitalityBonus.id vitalityBonuses e.bonusId).isSome

/-- The `totalActivityScore` accumulator as a standalone sum: `activity.points`
summed over the activities whose category resolves. -/
def totalActivityScore (categories : List ActivityCategory) : List ActivityLog → ℚ
  | [] => 0
  | a :: rest =>
    (if resolvesCat categories a then a.points else 0) + totalActivityScore categories rest

/-- The `totalTimeLogged` accumulator as a standalone sum: `activity.duration`
summed over the activities whose category resolves. -/
def totalTime (categories : List ActivityCategory) : List ActivityLog → ℚ
  | [] => 0
  | a :: rest =>
    (if resolvesCat categories a then a.duration else 0) + totalTime categories rest

/-- The `deepWorkTime` accumulator as a standalone sum: duration of resolved
activities whose category is named "Deep Work". -/
def deepWorkTime (categories : List ActivityCategory) : List ActivityLog → ℚ
  | [] => 0
  | a :: rest =>
    (match mapGet ActivityCategory.id categories a.categoryId with
      | some c => if c.name = "Deep Work" then a.duration else 0
      | none => 0) + deepWorkTime categories rest

/-- The `distractionTime` accumulator as a standalone sum: duration of resolved
activities whose category is named "Distraction" (and hence not "Deep Work"). -/
def distractionTime (categories : List ActivityCategory) : List ActivityLog → ℚ
  | [] => 0
  | a :: rest =>
    (match mapGet ActivityCategory.id categories a.categoryId with
      | some c => if c.name = "Deep Work" then 0
          else if c.name = "Distraction" then a.duration else 0
      | none => 0) + distractionTime categories rest

/-- The `positivePoints` accumulator as a standalone sum: positive
`activity.points` of resolved activities. -/
def positivePoints (categories : List ActivityCategory) : List ActivityLog → ℚ
  | [] => 0
  | a :: rest =>
    (if resolvesCat categories a ∧ a.points > 0 then a.points else 0) +
      positivePoints categories rest

/-- One `energyFocusCorrelation` bucket as a standalone sum: duration of
resolved "Deep Work" activities at the given energy level. -/
def efcBucket (categories : List ActivityCategory) (lvl : EnergyLevel) :
    List ActivityLog → ℚ
  | [] => 0
  | a :: rest =>
    (match mapGet ActivityCategory.id categories a.categoryId with
      | some c => if c.name = "Deep Work" ∧ a.energyLevel = lvl then a.duration else 0
      | none => 0) + efcBucket categories lvl rest

/-- The `totalVitalityScore` accumulator as a standalone sum: `bonus.points`
summed over completed entries whose bonus resolves. -/
def totalVitalityScore (vitalityBonuses : List VitalityBonus) : List VitalityEntry → ℚ
  | [] => 0
  | e :: rest =>
    (if e.completed then
      match mapGet VitalityBonus.id vitalityBonuses e.bonusId with
      | some bonus => bonus.points
      | none => 0
    else 0) + totalVitalityScore vitalityBonuses rest

/-- `getScoreColor` (MonthlyOverview.tsx lines 93-99): score-to-color
bucketing for the calendar rendering. -/
def getScoreColor (score : ℚ) : String :=
  if score ≥ 20 then "bg-emerald-500"
  else if score ≥ 15 then "bg-green-500"
  else if score ≥ 10 then "bg-yellow-500"
  else if score ≥ 5 then "bg-orange-500"
  else if score > 0 then "bg-red-500"
  else "bg-gray-300"

/-- The six color tiers of `getScoreColor`, from "no activity" up to
"very high". -/
def scoreTiers : List String :=
  ["bg-gray-300", "bg-red-500", "bg-orange-500", "bg-yellow-500",
   "bg-green-500", "bg-emerald-500"]

/-- Rank of a color class in the tier order
no activity < very low < low < medium < high < very high. -/
def tierRank (c : String) : ℕ :=
  if c = "bg-gray-300" then 0
  else if c = "bg-red-500" then 1
  else if c = "bg-orange-500" then 2
  else if c = "bg-yellow-500" then 3
  else if c = "bg-green-500" then 4
  else 5

/-- `defaultCategories` (database.ts lines 66-73 of the version-2 file; the
version-1 file holds the same six records). -/
def defaultCategories : List ActivityCategory :=
  [{ id := "deep-work", name := "Deep Work", points := 3, color := "#3B82F6",
     description := "Focused, cognitively demanding work" },
   { id := "shallow-work", name := "Shallow Work", points := 1, color := "#8B5CF6",
     description := "Administrative and logistical tasks" },
   { id := "learning", name := "Learning", points := 2, color := "#06B6D4",
     description := "Skill development and education" },
   { id := "meetings", name := "Meetings", points := 1, color := "#F59E0B",
     description := "Collaborative discussions and calls" },
   { id := "personal-care", name := "Personal Care", points := 1, color := "#10B981",
     description := "Health, wellness, and self-care activities" },
   { id := "distraction", name := "Distraction", points := -1, color := "#EF4444",
     description := "Social media, mindless browsing, etc." }]

/-- `defaultVitalityBonuses` (database.ts lines 75-80 of the version-2 file). -/
def defaultVitalityBonuses : List VitalityBonus :=
  [{ id := "sleep", name := "Quality Sleep", points := 5,
     description := "7+ hours of restful sleep" },
   { id := "exercise", name := "Exercise", points := 5,
     description := "Physical activity or workout" },
   { id := "meditation", name := "Meditation", points := 3,
     description := "Mindfulness or meditation practice" },
   { id := "planning", name := "Daily Planning", points := 2,
     description := "Setting intentions and planning the day" }]

/-- The object stores of the `DailyEffectivenessLogger` IndexedDB database:
`categories`, `vitality`, `activities`, `vitalityEntries`, `goals`, `metrics`,
and (schema version 2) `tasks`.  Each store is a sequence of records keyed by
`id` (the `metrics` store is keyed by `date`). -/
structure StoreState where
  categories : List ActivityCategory
  vitality : List VitalityBonus
  activities : List ActivityLog
  vitalityEntries : List VitalityEntry
  goals : List DailyGoal
  metrics : List DailyMetricsRecord
  tasks : List DailyTask
deriving DecidableEq, Repr

/-- A database with every object store empty. -/
def emptyStore : StoreState := ⟨[], [], [], [], [], [], []⟩

/-- IndexedDB `store.put(data)` on an object store with `keyPath: 'id'`:
replace the record stored at that key if present, otherwise append. -/
def putRecord {α : Type} (key : α → String) (r : α) (l : List α) : List α :=
  if l.any (fun x => key x = key r) then
    l.map (fun x => if key x = key r then r else x)
  else l ++ [r]

/-- Errors the store surfaces to callers. `DuplicateKey` embeds the
`ConstraintError` IndexedDB raises when `store.add` hits an existing key. -/
inductive StoreError where
  | DuplicateKey
deriving DecidableEq, Repr

/-- IndexedDB `store.add(data)` on an object store with `keyPath: 'id'`:
fails with a `ConstraintError` (`DuplicateKey`) if the key is already present,
otherwise appends. -/
def addRecord {α : Type} (key : α → String) (r : α) (l : List α) :
    Except StoreError (List α) :=
  if l.any (fun x => key x = key r) then .error .DuplicateKey
  else .ok (l ++ [r])

namespace DatabaseV1

/-- `addActivity` of the version-1 `DatabaseManager` (part_010 lines 249-260):
uses `store.add`, so a colliding id raises `ConstraintError`. -/
def addActivity (activity : ActivityLog) (s : StoreState) :
    Except StoreError StoreState :=
  (addRecord ActivityLog.id activity s.activities).map
    fun l => { s with activities := l }

/-- `addCategory` of the version-1 `DatabaseManager` (part_010 lines 208-219):
uses `store.add`. -/
def addCategory (category : ActivityCategory) (s : StoreState) :
    Except StoreError StoreState :=
  (addRecord ActivityCategory.id category s.categories).map
    fun l => { s with categories := l }

/-- `addVitalityEntry` of the version-1 `DatabaseManager` (part_010 lines
303-314): uses `store.add`. -/
def addVitalityEntry (entry : VitalityEntry) (s : StoreState) :
    Except StoreError StoreState :=
  (addRecord VitalityEntry.id entry s.vitalityEntries).map
    fun l => { s with vitalityEntries := l }

/-- `clearAllData` (part_010 lines 422-443): clears exactly the object stores
`activities`, `vitalityEntries`, `goals` and `metrics`. -/
def clearAllData (s : StoreState) : StoreState :=
  { s with activities := [], vitalityEntries := [], goals := [], metrics := [] }

end DatabaseV1

namespace DatabaseV2

/-- `addActivity` of the version-2 `DatabaseManager` (part_011 line 210): goes
through `writeToStore`, which uses `store.put` (part_011 lines 156-165), so it
inserts or silently replaces by id. -/
def addActivity (activity : ActivityLog) (s : StoreState) : StoreState :=
  { s with activities := putRecord ActivityLog.id activity s.activities }

/-- `addCategory` of the version-2 `DatabaseManager` (part_011 line 206):
`writeToStore` with `store.put`. -/
def addCategory (category : ActivityCategory) (s : StoreState) : StoreState :=
  { s with categories := putRecord ActivityCategory.id category s.categories }

/-- `addVitalityBonus` of the version-2 `DatabaseManager` (part_011 line 207):
`writeToStore` with `store.put`. -/
def addVitalityBonus (bonus : VitalityBonus) (s : StoreState) : StoreState :=
  { s with vitality := putRecord VitalityBonus.id bonus s.vitality }

/-- `addVitalityEntry` of the version-2 `DatabaseManager` (part_011 line 216):
`writeToStore` with `store.put`. -/
def addVitalityEntry (entry : VitalityEntry) (s : StoreState) : StoreState :=
  { s with vitalityEntries := putRecord VitalityEntry.id entry s.vitalityEntries }

/-- `initializeDefaultData` (part_011 lines 129-143, identical in structure to
part_010 lines 161-179): seed `defaultCategories` when the `categories` store
is empty, then seed `defaultVitalityBonuses` when the `vitality` store is
empty. -/
def initializeDefaultData (s : StoreState) : StoreState :=
  let s1 := if s.categories.length = 0 then
      defaultCategories.foldl (fun st c => addCategory c st) s
    else s
  if s1.vitality.length = 0 then
    defaultVitalityBonuses.foldl (fun st b => addVitalityBonus b st) s1
  else s1

end DatabaseV2

/-- The snapshot object built by `exportData` (part_010 lines 380-393): the
full `categories`, `vitality`, `activities` and `vitalityEntries` stores plus
an export timestamp. -/
structure ExportSnapshot where
  categories : List ActivityCategory
  vitality : List VitalityBonus
  activities : List ActivityLog
  vitalityEntries : List VitalityEntry
  exportDate : String
deriving DecidableEq, Repr

/-- `exportData` (part_010 lines 380-393), with the `new Date().toISOString()`
timestamp passed in as `now`. -/
def exportData (s : StoreState) (now : String) : ExportSnapshot :=
  { categories := s.categories, vitality := s.vitality,
    activities := s.activities, vitalityEntries := s.vitalityEntries,
    exportDate := now }

/-- Modelled from the spec: `importAll(snapshot)` has no implementation under
the sources (only `exportData` is present); per the spec it is a "bulk upsert
of every record in the snapshot into matching collections; does not clear
existing data". Upsert is IndexedDB `put` by id. -/
def importAll (snap : ExportSnapshot) (s : StoreState) : StoreState :=
  let s1 := snap.categories.foldl (fun st c => DatabaseV2.addCategory c st) s
  let s2 := snap.vitality.foldl (fun st b => DatabaseV2.addVitalityBonus b st) s1
  let s3 := snap.activities.foldl (fun st a => DatabaseV2.addActivity a st) s2
  snap.vitalityEntries.foldl (fun st e => DatabaseV2.addVitalityEntry e st) s3

/-- The activity loop of `calculateDailyMetrics` decomposes into the per-field
standalone sums: folding `activityStep` adds each sum to the corresponding
initial accumulator field. -/
theorem foldl_activityStep (cats : List ActivityCategory) (acts : List ActivityLog) :
    ∀ acc : ActivityAccum,
      acts.foldl (activityStep cats) acc =
        { totalActivityScore := acc.totalActivityScore + totalActivityScore cats acts
          totalTimeLogged := acc.totalTimeLogged + totalTime cats acts
          deepWorkTime := acc.deepWorkTime + deepWorkTime cats acts
          distractionTime := acc.distractionTime + distractionTime cats acts
          positivePoints := acc.positivePoints + positivePoints cats acts
          efc := ⟨acc.efc.high + efcBucket cats .High acts,
                  acc.efc.medium + efcBucket cats .Medium acts,
                  acc.efc.low + efcBucket cats .Low acts⟩ } := by
  induction acts with
  | nil =>
    intro acc
    simp [totalActivityScore, totalTime, deepWorkTime, distractionTime,
      positivePoints, efcBucket]
  | cons a rest ih =>
    intro acc
    rw [List.foldl_cons, ih]
    cases h : mapGet ActivityCategory.id cats a.categoryId with
    | none =>
      simp [activityStep, h, totalActivityScore, totalTime, deepWorkTime,
        distractionTime, positivePoints, efcBucket, resolvesCat]
    | some c =>
      cases hE : a.energyLevel <;>
        by_cases hp : a.points > 0 <;>
        by_cases hdw : c.name = "Deep Work" <;>
        by_cases hdi : c.name = "Distraction" <;>
        simp [activityStep, h, hE, hp, hdw, hdi, totalActivityScore, totalTime,
          deepWorkTime, distractionTime, positivePoints, efcBucket, resolvesCat,
          ActivityAccum.mk.injEq, EnergyFocusCorrelation.mk.injEq] <;>
        ring_nf <;>
        simp [add_comm, add_left_comm, add_assoc]

/-- The vitality loop of `calculateDailyMetrics` is the standalone sum offset
by the initial accumulator. -/
theorem foldl_vitalityStep (bonuses : List VitalityBonus)
    (entries : List VitalityEntry) :
    ∀ s : ℚ, entries.foldl (vitalityStep bonuses) s =
      s + totalVitalityScore bonuses entries := by
  induction entries with
  | nil => intro s; simp [totalVitalityScore]
  | cons e rest ih =>
    intro s
    rw [List.foldl_cons, ih]
    simp only [totalVitalityScore, vitalityStep]
    cases he : e.completed <;>
      cases hb : mapGet VitalityBonus.id bonuses e.bonusId <;>
      simp [he, hb] <;> ring

/-- C1: for the input consisting of exactly one activity whose category has
points 3 per hour, duration 120 minutes, stored points 6, energy level High,
category named "Deep Work", and no vitality entries, `calculateDailyMetrics`
returns totalScore 6, focusRatio 100, distractionRatio 0,
productivityThroughput 3, and energyFocusCorrelation.high 120 (minutes). -/
theorem scenarioA_calculateDailyMetrics :
    calculateDailyMetrics
      [{ id := "a1", name := "w", categoryId := "deep-work", startTime := 0,
         endTime := 7200000, date := "2024-01-01", energyLevel := .High,
         duration := 120, points := 6 }]
      [{ id := "deep-work", name := "Deep Work", points := 3, color := "#3B82F6",
         description := "Focused, cognitively demanding work" }]
      [] []
    = { totalScore := 6, focusRatio := 100, distractionRatio := 0,
        productivityThroughput := 3, totalTimeLogged := 120,
        energyFocusCorrelation := ⟨120, 0, 0⟩ } := by
  norm_num [calculateDailyMetrics, activityStep, vitalityStep, mapGet, List.find?]

theorem totalActivityScore_filter (cats : List ActivityCategory) :
    ∀ acts : List ActivityLog,
      totalActivityScore cats (acts.filter (resolvesCat cats)) =
        totalActivityScore cats acts
  | [] => by simp [totalActivityScore]
  | a :: rest => by
    cases h : mapGet ActivityCategory.id cats a.categoryId <;>
      simp [List.filter_cons, resolvesCat, h, totalActivityScore,
        totalActivityScore_filter cats rest]

theorem totalTime_filter (cats : List ActivityCategory) :
    ∀ acts : List ActivityLog,
      totalTime cats (acts.filter (resolvesCat cats)) = totalTime cats acts
  | [] => by simp [totalTime]
  | a :: rest => by
    cases h : mapGet ActivityCategory.id cats a.categoryId <;>
      simp [List.filter_cons, resolvesCat, h, totalTime, totalTime_filter cats rest]

theorem deepWorkTime_filter (cats : List ActivityCategory) :
    ∀ acts : List ActivityLog,
      deepWorkTime cats (acts.filter (resolvesCat cats)) = deepWorkTime cats acts
  | [] => by simp [deepWorkTime]
  | a :: rest => by
    cases h : mapGet ActivityCategory.id cats a.categoryId <;>
      simp [List.filter_cons, resolvesCat, h, deepWorkTime,
        deepWorkTime_filter cats rest]

theorem distractionTime_filter (cats : List ActivityCategory) :
    ∀ acts : List ActivityLog,
      distractionTime cats (acts.filter (resolvesCat cats)) =
        distractionTime cats acts
  | [] => by simp [distractionTime]
  | a :: rest => by
    cases h : mapGet ActivityCategory.id cats a.categoryId <;>
      simp [List.filter_cons, resolvesCat, h, distractionTime,
        distractionTime_filter cats rest]

theorem positivePoints_filter (cats : List ActivityCategory) :
    ∀ acts : List ActivityLog,
      positivePoints cats (acts.filter (resolvesCat cats)) =
        positivePoints cats acts
  | [] => by simp [positivePoints]
  | a :: rest => by
    cases h : mapGet ActivityCategory.id cats a.categoryId <;>
      simp [List.filter_cons, resolvesCat, h, positivePoints,
        positivePoints_filter cats rest]

theorem efcBucket_filter (cats : List ActivityCategory) (lvl : EnergyLevel) :
    ∀ acts : List ActivityLog,
      efcBucket cats lvl (acts.filter (resolvesCat cats)) = efcBucket cats lvl acts
  | [] => by simp [efcBucket]
  | a :: rest => by
    cases h : mapGet ActivityCategory.id cats a.categoryId <;>
      simp [List.filter_cons, resolvesCat, h, efcBucket,
        efcBucket_filter cats lvl rest]

theorem totalVitalityScore_filter (bonuses : List VitalityBonus) :
    ∀ entries : List VitalityEntry,
      totalVitalityScore bonuses (entries.filter (resolvesBonus bonuses)) =
        totalVitalityScore bonuses entries
  | [] => by simp [totalVitalityScore]
  | e :: rest => by
    cases h : mapGet VitalityBonus.id bonuses e.bonusId <;>
      cases he : e.completed <;>
      simp [List.filter_cons, resolvesBonus, h, he, totalVitalityScore,
        totalVitalityScore_filter bonuses rest]

/-- C2: `calculateDailyMetrics` never fails (its embedding is a total function,
built only from total operations), and activities whose `categoryId` does not
resolve, as well as vitality entries whose `bonusId` does not resolve,
contribute nothing: dropping them from the input leaves the result unchanged. -/
theorem calculateDailyMetrics_skips_unresolved (acts : List ActivityLog)
    (cats : List ActivityCategory) (entries : List VitalityEntry)
    (bonuses : List VitalityBonus) :
    calculateDailyMetrics acts cats entries bonuses =
      calculateDailyMetrics (acts.filter (resolvesCat cats)) cats
        (entries.filter (resolvesBonus bonuses)) bonuses := by
  simp [calculateDailyMetrics, foldl_activityStep, foldl_vitalityStep,
    totalActivityScore_filter, totalTime_filter, deepWorkTime_filter,
    distractionTime_filter, positivePoints_filter, efcBucket_filter,
    totalVitalityScore_filter]

theorem totalVitalityScore_append (bonuses : List VitalityBonus) :
    ∀ l1 l2 : List VitalityEntry,
      totalVitalityScore bonuses (l1 ++ l2) =
        totalVitalityScore bonuses l1 + totalVitalityScore bonuses l2
  | [], l2 => by simp [totalVitalityScore]
  | e :: rest, l2 => by
    simp [totalVitalityScore, totalVitalityScore_append bonuses rest l2]
    ring

/-- C3: `totalScore` is the sum of the activity-score term and the
vitality-score term, and appending one completed vitality entry whose bonus
resolves to a bonus worth `p` points raises `totalScore` by exactly `p`. -/
theorem totalScore_additive (acts : List ActivityLog)
    (cats : List ActivityCategory) (entries : List VitalityEntry)
    (bonuses : List VitalityBonus) :
    (calculateDailyMetrics acts cats entries bonuses).totalScore =
        totalActivityScore cats acts + totalVitalityScore bonuses entries ∧
      ∀ (e : VitalityEntry) (b : VitalityBonus), e.completed = true →
        mapGet VitalityBonus.id bonuses e.bonusId = some b →
        (calculateDailyMetrics acts cats (entries ++ [e]) bonuses).totalScore =
          (calculateDailyMetrics acts cats entries bonuses).totalScore + b.points := by
  constructor
  · simp [calculateDailyMetrics, foldl_activityStep, foldl_vitalityStep]
  · intro e b he hb
    simp [calculateDailyMetrics, foldl_activityStep, foldl_vitalityStep,
      totalVitalityScore_append, totalVitalityScore, vitalityStep, he, hb]
    ring

/-- Witness for C3 at a concrete input: appending the completed "sleep" entry
(worth 5 points) to the empty entry list raises `totalScore` by 5. -/
theorem totalScore_additive_witness :
    (calculateDailyMetrics [] []
        ([] ++ [(⟨"v1", "2024-01-01", "sleep", true⟩ : VitalityEntry)])
        defaultVitalityBonuses).totalScore =
      (calculateDailyMetrics [] [] [] defaultVitalityBonuses).totalScore + 5 :=
  (totalScore_additive [] [] [] defaultVitalityBonuses).2
    ⟨"v1", "2024-01-01", "sleep", true⟩
    ⟨"sleep", "Quality Sleep", 5, "7+ hours of restful sleep"⟩
    rfl rfl

/-- With non-negative durations, the deep-work and distraction time sums are
non-negative and together bounded by the total logged time (each activity's
duration lands in at most one of the two buckets). -/
theorem time_sums_bounds (cats : List ActivityCategory) :
    ∀ acts : List ActivityLog, (∀ a ∈ acts, 0 ≤ a.duration) →
      0 ≤ deepWorkTime cats acts ∧ 0 ≤ distractionTime cats acts ∧
        deepWorkTime cats acts + distractionTime cats acts ≤ totalTime cats acts
  | [], _ => by simp [deepWorkTime, distractionTime, totalTime]
  | a :: rest, h => by
    have hd : 0 ≤ a.duration := h a (List.mem_cons_self a rest)
    obtain ⟨ih1, ih2, ih3⟩ :=
      time_sums_bounds cats rest (fun x hx => h x (List.mem_cons_of_mem a hx))
    cases hm : mapGet ActivityCategory.id cats a.categoryId with
    | none =>
      simp only [deepWorkTime, distractionTime, totalTime, resolvesCat, hm,
        Option.isSome_none, Bool.false_eq_true, reduceIte, zero_add]
      exact ⟨ih1, ih2, ih3⟩
    | some c =>
      simp only [deepWorkTime, distractionTime, totalTime, resolvesCat, hm,
        Option.isSome_some, cond_true]
      by_cases hdw : c.name = "Deep Work"
      · simp only [hdw, reduceIte, zero_add]
        exact ⟨by linarith, ih2, by linarith⟩
      · by_cases hdi : c.name = "Distraction"
        · simp [hdw, hdi, zero_add]
          exact ⟨ih1, by linarith, by linarith⟩
        · simp [hdw, hdi, zero_add]
          exact ⟨ih1, ih2, by linarith⟩

/-- C4: with non-negative activity durations, `focusRatio` and
`distractionRatio` each lie in `[0, 100]`, and both are `0` whenever the total
logged time is `0`. -/
theorem ratio_bounds (acts : List ActivityLog) (cats : List ActivityCategory)
    (entries : List VitalityEntry) (bonuses : List VitalityBonus)
    (hdur : ∀ a ∈ acts, 0 ≤ a.duration) :
    (0 ≤ (calculateDailyMetrics acts cats entries bonuses).focusRatio ∧
      (calculateDailyMetrics acts cats entries bonuses).focusRatio ≤ 100 ∧
      0 ≤ (calculateDailyMetrics acts cats entries bonuses).distractionRatio ∧
      (calculateDailyMetrics acts cats entries bonuses).distractionRatio ≤ 100) ∧
    ((calculateDailyMetrics acts cats entries bonuses).totalTimeLogged = 0 →
      (calculateDailyMetrics acts cats entries bonuses).focusRatio = 0 ∧
      (calculateDailyMetrics acts cats entries bonuses).distractionRatio = 0) := by
  obtain ⟨h1, h2, h3⟩ := time_sums_bounds cats acts hdur
  simp only [calculateDailyMetrics, foldl_activityStep, zero_add]
  by_cases ht : totalTime cats acts > 0
  · simp only [ht, if_true, ite_true]
    refine ⟨⟨?_, ?_, ?_, ?_⟩, ?_⟩
    · exact mul_nonneg (div_nonneg h1 (le_of_lt ht)) (by norm_num)
    · rw [div_mul_eq_mul_div, div_le_iff ht]; linarith
    · exact mul_nonneg (div_nonneg h2 (le_of_lt ht)) (by norm_num)
    · rw [div_mul_eq_mul_div, div_le_iff ht]; linarith
    · intro h0; exact absurd h0 (by linarith)
  · simp only [ht, if_false, ite_false]
    norm_num

/-- Witness for C4 at the Scenario A input. -/
theorem ratio_bounds_witness :
    (0 ≤ (calculateDailyMetrics
        [⟨"a1", "w", "deep-work", 0, 7200000, "2024-01-01", .High, 120, 6⟩]
        [⟨"deep-work", "Deep Work", 3, "#3B82F6", "d"⟩] [] []).focusRatio ∧
      (calculateDailyMetrics
        [⟨"a1", "w", "deep-work", 0, 7200000, "2024-01-01", .High, 120, 6⟩]
        [⟨"deep-work", "Deep Work", 3, "#3B82F6", "d"⟩] [] []).focusRatio ≤ 100 ∧
      0 ≤ (calculateDailyMetrics
        [⟨"a1", "w", "deep-work", 0, 7200000, "2024-01-01", .High, 120, 6⟩]
        [⟨"deep-work", "Deep Work", 3, "#3B82F6", "d"⟩] [] []).distractionRatio ∧
      (calculateDailyMetrics
        [⟨"a1", "w", "deep-work", 0, 7200000, "2024-01-01", .High, 120, 6⟩]
        [⟨"deep-work", "Deep Work", 3, "#3B82F6", "d"⟩] [] []).distractionRatio ≤ 100) ∧
    ((calculateDailyMetrics
        [⟨"a1", "w", "deep-work", 0, 7200000, "2024-01-01", .High, 120, 6⟩]
        [⟨"deep-work", "Deep Work", 3, "#3B82F6", "d"⟩] [] []).totalTimeLogged = 0 →
      (calculateDailyMetrics
        [⟨"a1", "w", "deep-work", 0, 7200000, "2024-01-01", .High, 120, 6⟩]
        [⟨"deep-work", "Deep Work", 3, "#3B82F6", "d"⟩] [] []).focusRatio = 0 ∧
      (calculateDailyMetrics
        [⟨"a1", "w", "deep-work", 0, 7200000, "2024-01-01", .High, 120, 6⟩]
        [⟨"deep-work", "Deep Work", 3, "#3B82F6", "d"⟩] [] []).distractionRatio = 0) :=
  ratio_bounds
    [⟨"a1", "w", "deep-work", 0, 7200000, "2024-01-01", .High, 120, 6⟩]
    [⟨"deep-work", "Deep Work", 3, "#3B82F6", "d"⟩] [] []
    (by intro a ha; simp at ha; subst ha; norm_num)

/-- C10: with non-negative durations and positive total logged time,
`focusRatio + distractionRatio` is at most 100, because each activity's
duration counts toward at most one of the two buckets. -/
theorem ratio_sum_le_100 (acts : List ActivityLog) (cats : List ActivityCategory)
    (entries : List VitalityEntry) (bonuses : List VitalityBonus)
    (hdur : ∀ a ∈ acts, 0 ≤ a.duration)
    (hpos : 0 < (calculateDailyMetrics acts cats entries bonuses).totalTimeLogged) :
    (calculateDailyMetrics acts cats entries bonuses).focusRatio +
      (calculateDailyMetrics acts cats entries bonuses).distractionRatio ≤ 100 := by
  obtain ⟨h1, h2, h3⟩ := time_sums_bounds cats acts hdur
  simp only [calculateDailyMetrics, foldl_activityStep, zero_add] at hpos ⊢
  simp only [hpos, if_true, ite_true]
  rw [div_mul_eq_mul_div, div_mul_eq_mul_div, div_add_div_same, div_le_iff hpos]
  linarith

/-- Witness for C10 at the Scenario A input (total logged time 120 > 0). -/
theorem ratio_sum_le_100_witness :
    (calculateDailyMetrics
        [⟨"a1", "w", "deep-work", 0, 7200000, "2024-01-01", .High, 120, 6⟩]
        [⟨"deep-work", "Deep Work", 3, "#3B82F6", "d"⟩] [] []).focusRatio +
      (calculateDailyMetrics
        [⟨"a1", "w", "deep-work", 0, 7200000, "2024-01-01", .High, 120, 6⟩]
        [⟨"deep-work", "Deep Work", 3, "#3B82F6", "d"⟩] [] []).distractionRatio ≤ 100 :=
  ratio_sum_le_100
    [⟨"a1", "w", "deep-work", 0, 7200000, "2024-01-01", .High, 120, 6⟩]
    [⟨"deep-work", "Deep Work", 3, "#3B82F6", "d"⟩] [] []
    (by intro a ha; simp at ha; subst ha; norm_num)
    (by norm_num [calculateDailyMetrics, activityStep, vitalityStep, mapGet, List.find?])

/-- `tierRank ∘ getScoreColor` as a numeric step function on scores. -/
theorem tierRank_getScoreColor (s : ℚ) :
    tierRank (getScoreColor s) =
      if s ≥ 20 then 5 else if s ≥ 15 then 4 else if s ≥ 10 then 3
      else if s ≥ 5 then 2 else if s > 0 then 1 else 0 := by
  by_cases h20 : s ≥ 20
  · simp [getScoreColor, tierRank, h20]
  · by_cases h15 : s ≥ 15
    · simp [getScoreColor, tierRank, h20, h15]
    · by_cases h10 : s ≥ 10
      · simp [getScoreColor, tierRank, h20, h15, h10]
      · by_cases h5 : s ≥ 5
        · simp [getScoreColor, tierRank, h20, h15, h10, h5]
        · by_cases h0 : s > 0
          · simp [getScoreColor, tierRank, h20, h15, h10, h5, h0]
          · simp [getScoreColor, tierRank, h20, h15, h10, h5, h0]

/-- C9: `getScoreColor` is total — every score maps to exactly one of the six
tiers — and monotonic: a larger score is never assigned a lower tier in the
order no activity < very low < low < medium < high < very high. -/
theorem getScoreColor_total_monotone :
    (∀ s : ℚ, getScoreColor s ∈ scoreTiers) ∧
    (∀ s1 s2 : ℚ, s1 ≤ s2 →
      tierRank (getScoreColor s1) ≤ tierRank (getScoreColor s2)) := by
  constructor
  · intro s
    unfold getScoreColor
    split_ifs <;> simp [scoreTiers]
  · intro s1 s2 h
    rw [tierRank_getScoreColor, tierRank_getScoreColor]
    split_ifs <;> linarith

/-- Witness for C9: a score of 3 is in a tier, and no higher a tier than a
score of 17. -/
theorem getScoreColor_total_monotone_witness :
    getScoreColor 3 ∈ scoreTiers ∧
      tierRank (getScoreColor 3) ≤ tierRank (getScoreColor 17) :=
  ⟨getScoreColor_total_monotone.1 3,
   getScoreColor_total_monotone.2 3 17 (by norm_num)⟩

/-- `put` of a record already stored, when ids are unique, changes nothing. -/
theorem putRecord_mem_self {α : Type} (key : α → String) (r : α) (l : List α)
    (hr : r ∈ l) (hu : ∀ x ∈ l, key x = key r → x = r) :
    putRecord key r l = l := by
  have hany : (l.any fun x => key x = key r) = true := by
    rw [List.any_eq_true]
    exact ⟨r, hr, by simp⟩
  simp only [putRecord, hany, if_true, ite_true]
  rw [List.map_congr_left (fun x hx => ?_), List.map_id]
  by_cases hk : key x = key r
  · simp [hk, hu x hx hk]
  · simp [hk]

/-- Re-`put`ting every record of a duplicate-free collection back into it
leaves the collection unchanged. -/
theorem foldl_putRecord_self {α : Type} (key : α → String) (l : List α)
    (hnd : (l.map key).Nodup) :
    ∀ m : List α, (∀ r ∈ m, r ∈ l) →
      m.foldl (fun acc r => putRecord key r acc) l = l := by
  intro m
  induction m with
  | nil => intro _; rfl
  | cons r rest ih =>
    intro h
    have hrl : r ∈ l := h r (List.mem_cons_self r rest)
    rw [List.foldl_cons,
      putRecord_mem_self key r l hrl
        (fun x hx hk => List.inj_on_of_nodup_map hnd hx hrl hk)]
    exact ih (fun x hx => h x (List.mem_cons_of_mem r hx))

theorem foldl_addCategory (l : List ActivityCategory) :
    ∀ s : StoreState,
      l.foldl (fun st c => DatabaseV2.addCategory c st) s =
        { s with categories :=
            l.foldl (fun acc r => putRecord ActivityCategory.id r acc) s.categories } := by
  induction l with
  | nil => intro s; rfl
  | cons c rest ih =>
    intro s
    rw [List.foldl_cons, List.foldl_cons, ih]
    rfl

theorem foldl_addVitalityBonus (l : List VitalityBonus) :
    ∀ s : StoreState,
      l.foldl (fun st b => DatabaseV2.addVitalityBonus b st) s =
        { s with vitality :=
            l.foldl (fun acc r => putRecord VitalityBonus.id r acc) s.vitality } := by
  induction l with
  | nil => intro s; rfl
  | cons b rest ih =>
    intro s
    rw [List.foldl_cons, List.foldl_cons, ih]
    rfl

theorem foldl_addActivity (l : List ActivityLog) :
    ∀ s : StoreState,
      l.foldl (fun st a => DatabaseV2.addActivity a st) s =
        { s with activities :=
            l.foldl (fun acc r => putRecord ActivityLog.id r acc) s.activities } := by
  induction l with
  | nil => intro s; rfl
  | cons a rest ih =>
    intro s
    rw [List.foldl_cons, List.foldl_cons, ih]
    rfl

theorem foldl_addVitalityEntry (l : List VitalityEntry) :
    ∀ s : StoreState,
      l.foldl (fun st e => DatabaseV2.addVitalityEntry e st) s =
        { s with vitalityEntries :=
            l.foldl (fun acc r => putRecord VitalityEntry.id r acc) s.vitalityEntries } := by
  induction l with
  | nil => intro s; rfl
  | cons e rest ih =>
    intro s
    rw [List.foldl_cons, List.foldl_cons, ih]
    rfl

/-- C5: importing the snapshot produced by `exportData` back into the
untouched store reproduces the store exactly (hence every query returns the
same records), provided each exported collection is duplicate-free in its
ids — the invariant IndexedDB keyPath storage guarantees.  `importAll` is
modelled from the spec (see its doc comment); `exportData` is from the code. -/
theorem importAll_exportData_roundTrip (s : StoreState) (now : String)
    (h1 : (s.categories.map ActivityCategory.id).Nodup)
    (h2 : (s.vitality.map VitalityBonus.id).Nodup)
    (h3 : (s.activities.map ActivityLog.id).Nodup)
    (h4 : (s.vitalityEntries.map VitalityEntry.id).Nodup) :
    importAll (exportData s now) s = s := by
  unfold importAll exportData
  simp only [foldl_addCategory, foldl_addVitalityBonus, foldl_addActivity,
    foldl_addVitalityEntry]
  rw [foldl_putRecord_self ActivityCategory.id s.categories h1 s.categories
    (fun r hr => hr)]
  rw [foldl_putRecord_self VitalityBonus.id s.vitality h2 s.vitality
    (fun r hr => hr)]
  rw [foldl_putRecord_self ActivityLog.id s.activities h3 s.activities
    (fun r hr => hr)]
  rw [foldl_putRecord_self VitalityEntry.id s.vitalityEntries h4 s.vitalityEntries
    (fun r hr => hr)]

/-- Witness for C5: the round trip is the identity on a concrete store holding
one category, one bonus, one activity and one vitality entry. -/
theorem importAll_exportData_roundTrip_witness :
    importAll
      (exportData
        { emptyStore with
          categories := [⟨"deep-work", "Deep Work", 3, "#3B82F6", "d"⟩],
          vitality := [⟨"sleep", "Quality Sleep", 5, "s"⟩],
          activities := [⟨"a1", "w", "deep-work", 0, 7200000, "2024-01-01", .High, 120, 6⟩],
          vitalityEntries := [⟨"v1", "2024-01-01", "sleep", true⟩] }
        "2024-01-02T00:00:00.000Z")
      { emptyStore with
        categories := [⟨"deep-work", "Deep Work", 3, "#3B82F6", "d"⟩],
        vitality := [⟨"sleep", "Quality Sleep", 5, "s"⟩],
        activities := [⟨"a1", "w", "deep-work", 0, 7200000, "2024-01-01", .High, 120, 6⟩],
        vitalityEntries := [⟨"v1", "2024-01-01", "sleep", true⟩] } =
      { emptyStore with
        categories := [⟨"deep-work", "Deep Work", 3, "#3B82F6", "d"⟩],
        vitality := [⟨"sleep", "Quality Sleep", 5, "s"⟩],
        activities := [⟨"a1", "w", "deep-work", 0, 7200000, "2024-01-01", .High, 120, 6⟩],
        vitalityEntries := [⟨"v1", "2024-01-01", "sleep", true⟩] } :=
  importAll_exportData_roundTrip _ "2024-01-02T00:00:00.000Z"
    (by simp) (by simp) (by simp) (by simp)

theorem seedCategories_from_empty :
    defaultCategories.foldl
      (fun acc r => putRecord ActivityCategory.id r acc) [] = defaultCategories := by
  rfl

theorem seedBonuses_from_empty :
    defaultVitalityBonuses.foldl
      (fun acc r => putRecord VitalityBonus.id r acc) [] = defaultVitalityBonuses := by
  rfl

/-- `initializeDefaultData` in closed form: each of the two reference
collections is replaced by its default list exactly when it was empty. -/
theorem initializeDefaultData_eq (s : StoreState) :
    DatabaseV2.initializeDefaultData s =
      { s with
        categories := if s.categories = [] then defaultCategories else s.categories,
        vitality := if s.vitality = [] then defaultVitalityBonuses else s.vitality } := by
  unfold DatabaseV2.initializeDefaultData
  by_cases hc : s.categories = [] <;> by_cases hv : s.vitality = [] <;>
    simp [hc, hv, foldl_addCategory, foldl_addVitalityBonus,
      List.length_eq_zero, seedCategories_from_empty, seedBonuses_from_empty]

/-- C6: `initializeDefaultData` seeds the default categories and bonuses into
an empty store, writes nothing when both reference collections are already
non-empty, and is idempotent, so the reference records are never duplicated. -/
theorem initializeDefaultData_idempotent :
    (∀ s : StoreState, s.categories = [] → s.vitality = [] →
      (DatabaseV2.initializeDefaultData s).categories = defaultCategories ∧
        (DatabaseV2.initializeDefaultData s).vitality = defaultVitalityBonuses) ∧
    (∀ s : StoreState, s.categories ≠ [] → s.vitality ≠ [] →
      DatabaseV2.initializeDefaultData s = s) ∧
    (∀ s : StoreState,
      DatabaseV2.initializeDefaultData (DatabaseV2.initializeDefaultData s) =
        DatabaseV2.initializeDefaultData s) := by
  refine ⟨?_, ?_, ?_⟩
  · intro s hc hv
    rw [initializeDefaultData_eq]
    simp [hc, hv]
  · intro s hc hv
    rw [initializeDefaultData_eq]
    simp [hc, hv]
  · intro s
    rw [initializeDefaultData_eq s, initializeDefaultData_eq]
    by_cases hc : s.categories = [] <;> by_cases hv : s.vitality = [] <;>
      simp [hc, hv, defaultCategories, defaultVitalityBonuses]

/-- Witness for C6: seeding the empty store fills both reference collections
with the defaults, a second run changes nothing, and a store already holding
the defaults is left untouched. -/
theorem initializeDefaultData_idempotent_witness :
    ((DatabaseV2.initializeDefaultData emptyStore).categories = defaultCategories ∧
      (DatabaseV2.initializeDefaultData emptyStore).vitality = defaultVitalityBonuses) ∧
    DatabaseV2.initializeDefaultData
        { emptyStore with
          categories := defaultCategories,
          vitality := defaultVitalityBonuses } =
      { emptyStore with
        categories := defaultCategories,
        vitality := defaultVitalityBonuses } ∧
    DatabaseV2.initializeDefaultData (DatabaseV2.initializeDefaultData emptyStore) =
      DatabaseV2.initializeDefaultData emptyStore :=
  ⟨initializeDefaultData_idempotent.1 emptyStore rfl rfl,
   initializeDefaultData_idempotent.2.1
     { emptyStore with
       categories := defaultCategories,
       vitality := defaultVitalityBonuses }
     (by simp [defaultCategories]) (by simp [defaultVitalityBonuses]),
   initializeDefaultData_idempotent.2.2 emptyStore⟩

/-- Counterexample to C7: in the version-2 store, inserting an activity whose
id already exists does not fail with `DuplicateKey` and does not leave the
collection unchanged — `addActivity` goes through `writeToStore`, which uses
`put`, so the colliding record silently replaces the stored one. -/
theorem addActivity_put_overwrites_cex :
    (DatabaseV2.addActivity
        ⟨"a1", "second", "deep-work", 0, 60000, "2024-01-01", .High, 1, 0⟩
        { emptyStore with
          activities := [⟨"a1", "first", "deep-work", 0, 60000, "2024-01-01", .High, 1, 0⟩] }).activities =
      [⟨"a1", "second", "deep-work", 0, 60000, "2024-01-01", .High, 1, 0⟩] ∧
    (⟨"a1", "second", "deep-work", 0, 60000, "2024-01-01", .High, 1, 0⟩ : ActivityLog) ≠
      ⟨"a1", "first", "deep-work", 0, 60000, "2024-01-01", .High, 1, 0⟩ := by
  constructor
  · rfl
  · intro h
    have hn := congrArg ActivityLog.name h
    simp at hn

/-- C7 as amended: the version-1 store's `addActivity` (IndexedDB `add`)
fails with `DuplicateKey` on a colliding id — leaving the store untouched,
since no new state is produced — and succeeds by appending when the id is
fresh; the version-2 store's `addActivity` (IndexedDB `put` via
`writeToStore`) never fails: a colliding id overwrites the stored record. -/
theorem insert_duplicateKey_semantics :
    (∀ (a : ActivityLog) (s : StoreState),
      (∃ x ∈ s.activities, x.id = a.id) →
        DatabaseV1.addActivity a s = .error .DuplicateKey) ∧
    (∀ (a : ActivityLog) (s : StoreState),
      (∀ x ∈ s.activities, x.id ≠ a.id) →
        DatabaseV1.addActivity a s = .ok { s with activities := s.activities ++ [a] }) ∧
    (∀ (a : ActivityLog) (s : StoreState),
      (∃ x ∈ s.activities, x.id = a.id) →
        DatabaseV2.addActivity a s =
          { s with activities :=
              s.activities.map (fun x => if x.id = a.id then a else x) }) := by
  refine ⟨?_, ?_, ?_⟩
  · intro a s h
    have hany : (s.activities.any fun x => x.id = a.id) = true := by
      rw [List.any_eq_true]
      obtain ⟨x, hx, hid⟩ := h
      exact ⟨x, hx, by simp [hid]⟩
    simp [DatabaseV1.addActivity, addRecord, hany, Except.map]
  · intro a s h
    have hany : (s.activities.any fun x => x.id = a.id) = false := by
      rw [List.any_eq_false]
      intro x hx
      simp [h x hx]
    simp [DatabaseV1.addActivity, addRecord, hany, Except.map]
  · intro a s h
    have hany : (s.activities.any fun x => x.id = a.id) = true := by
      rw [List.any_eq_true]
      obtain ⟨x, hx, hid⟩ := h
      exact ⟨x, hx, by simp [hid]⟩
    simp [DatabaseV2.addActivity, putRecord, hany]

/-- Witness for C7's amended statement at concrete stores: a duplicate insert
errors in the version-1 store, a fresh insert appends, and a duplicate `put`
in the version-2 store overwrites. -/
theorem insert_duplicateKey_semantics_witness :
    DatabaseV1.addActivity
        ⟨"a1", "w", "deep-work", 0, 60000, "2024-01-01", .High, 1, 0⟩
        { emptyStore with
          activities := [⟨"a1", "w", "deep-work", 0, 60000, "2024-01-01", .High, 1, 0⟩] } =
      .error .DuplicateKey ∧
    DatabaseV1.addActivity
        ⟨"a2", "w", "deep-work", 0, 60000, "2024-01-01", .High, 1, 0⟩
        { emptyStore with
          activities := [⟨"a1", "w", "deep-work", 0, 60000, "2024-01-01", .High, 1, 0⟩] } =
      .ok { emptyStore with
        activities :=
          [⟨"a1", "w", "deep-work", 0, 60000, "2024-01-01", .High, 1, 0⟩] ++
            [⟨"a2", "w", "deep-work", 0, 60000, "2024-01-01", .High, 1, 0⟩] } ∧
    DatabaseV2.addActivity
        ⟨"a1", "x", "deep-work", 0, 60000, "2024-01-01", .High, 1, 0⟩
        { emptyStore with
          activities := [⟨"a1", "w", "deep-work", 0, 60000, "2024-01-01", .High, 1, 0⟩] } =
      { emptyStore with
        activities :=
          [⟨"a1", "w", "deep-work", 0, 60000, "2024-01-01", .High, 1, 0⟩].map
            (fun x => if x.id = "a1" then
              ⟨"a1", "x", "deep-work", 0, 60000, "2024-01-01", .High, 1, 0⟩ else x) } :=
  ⟨insert_duplicateKey_semantics.1 _ _
      ⟨⟨"a1", "w", "deep-work", 0, 60000, "2024-01-01", .High, 1, 0⟩,
        by simp, rfl⟩,
   insert_duplicateKey_semantics.2.1 _ _ (by intro x hx; simp at hx; subst hx; simp),
   insert_duplicateKey_semantics.2.2 _ _
      ⟨⟨"a1", "w", "deep-work", 0, 60000, "2024-01-01", .High, 1, 0⟩,
        by simp, rfl⟩⟩

/-- Counterexample to C8: `clearAllData` on a store holding one task and one
metrics record leaves the task in place (the claim says tasks are emptied)
and empties the metrics store (the claim says only the four named collections
are emptied). -/
theorem clearAllData_cex :
    (DatabaseV1.clearAllData
        { emptyStore with
          tasks := [⟨"t1", "2024-01-01", "task", .High, false⟩],
          metrics := [⟨"2024-01-01", 1, 0, 0, 0, 0⟩] }).tasks =
      [⟨"t1", "2024-01-01", "task", .High, false⟩] ∧
    (DatabaseV1.clearAllData
        { emptyStore with
          tasks := [⟨"t1", "2024-01-01", "task", .High, false⟩],
          metrics := [⟨"2024-01-01", 1, 0, 0, 0, 0⟩] }).metrics = [] := by
  constructor <;> rfl

/-- C8 as amended: `clearAllData` empties exactly the `activities`,
`vitalityEntries`, `goals` and `metrics` stores; the `tasks` store and the
reference stores (`categories`, `vitality`) are left unchanged. -/
theorem clearAllData_spec (s : StoreState) :
    DatabaseV1.clearAllData s =
      { s with activities := [], vitalityEntries := [], goals := [], metrics := [] } ∧
    (DatabaseV1.clearAllData s).categories = s.categories ∧
    (DatabaseV1.clearAllData s).vitality = s.vitality ∧
    (DatabaseV1.clearAllData s).tasks = s.tasks := by
  refine ⟨rfl, rfl, rfl, rfl⟩

end DailyLogger
